import Mathlib

/-!
Verification development for the `twelve_data` Rust crate: a typed client for
the TwelveData financial-market REST API.  The definitions below are a shallow
embedding of the decode/encode and dispatch layer of the crate:

* `src/core.rs` — the custom field codecs (`TdDateTimeVisitor::visit_str`,
  `TdRangeVisitor::visit_str`), the request structs and the response structs;
* `src/lib.rs` — `TwelveData::send`, `CommonQueryParameters` and the wire
  enums;
* `src/errors.rs` — the `Error` enum.

Machine floats (`f64`) are embedded as exact values: a finite float literal is
carried as the rational number it denotes (the Rust code only parses and
stores these values, it never computes with them, so the rounding from the
decimal literal to the nearest `f64` plays no role in any property proved
here).  JSON numbers are likewise carried as rationals.
-/

deriving instance DecidableEq for Except

namespace TwelveData

/-! ## Chrono datetime model

`core.rs` parses datetimes with the chrono functions
`NaiveDateTime::parse_from_str(v, "%Y-%m-%d %H:%M:%S")` and
`NaiveDate::parse_from_str(v, "%Y-%m-%d")`.  The scanner below models
the chrono parser for exactly these two fixed format strings:

* a numeric item consumes optional leading whitespace and then 1 up to `w`
  ASCII digits (`w` = 4 for `%Y`, 2 for the other fields; signed years are
  not used by the crate and are not modelled);
* a literal item must match exactly (`TooShort` on empty input, `Invalid`
  on a mismatch);
* the space in the format is the chrono `Space` item: it matches any run of
  whitespace, including the empty run;
* leftover input after all items is `TooLong`;
* field resolution (`Parsed::to_naive_date` / `to_naive_time`) turns an
  impossible calendar date or time of day into `OutOfRange` (leap-second
  inputs, which the crate never receives, are not modelled).
-/

/-- The kinds of `chrono::format::ParseError`, with their `Display` texts. -/
inductive ChronoError where
  | outOfRange
  | impossible
  | notEnough
  | invalid
  | tooShort
  | tooLong
  | badFormat
  deriving DecidableEq, Repr

/-- The `Display` rendering of a `chrono::format::ParseError`. -/
def ChronoError.text : ChronoError → String
  | .outOfRange => "input is out of range"
  | .impossible => "no possible date and time matching input"
  | .notEnough => "input is not enough for unique date and time"
  | .invalid => "input contains invalid characters"
  | .tooShort => "premature end of input"
  | .tooLong => "trailing input"
  | .badFormat => "bad or unsupported format string"

/-- A `chrono::NaiveDateTime`, restricted to whole seconds (the two crate
formats carry no sub-second part). -/
structure NaiveDateTime where
  year : Int
  month : Nat
  day : Nat
  hour : Nat
  minute : Nat
  second : Nat
  deriving DecidableEq, Repr

/-- A bare calendar date (`chrono::NaiveDate`). -/
structure NaiveDate where
  year : Int
  month : Nat
  day : Nat
  deriving DecidableEq, Repr

/-- Model of `NaiveDate::and_hms`: attach a time of day to a date. -/
def NaiveDate.and_hms (d : NaiveDate) (h mi s : Nat) : NaiveDateTime :=
  ⟨d.year, d.month, d.day, h, mi, s⟩

/-- Digits-to-value accumulator for the numeric scanner. -/
def digitsToNat (ds : List Char) : Nat :=
  ds.foldl (fun acc c => acc * 10 + (c.toNat - '0'.toNat)) 0

/-- the chrono numeric scan: skip leading whitespace, then consume 1 up to
`maxW` ASCII digits.  No digit at all is `Invalid` (or `TooShort` when the
input is already exhausted). -/
def scanNumber (maxW : Nat) (s : List Char) :
    Except ChronoError (Nat × List Char) :=
  let s := s.dropWhile (·.isWhitespace)
  let ds := (s.take maxW).takeWhile (·.isDigit)
  if ds.isEmpty then
    .error (if s.isEmpty then .tooShort else .invalid)
  else
    .ok (digitsToNat ds, s.drop ds.length)

/-- the chrono literal scan: the next character must be exactly `c`. -/
def scanLit (c : Char) (s : List Char) : Except ChronoError (List Char) :=
  match s with
  | [] => .error .tooShort
  | x :: rest => if x = c then .ok rest else .error .invalid

/-- the chrono `Space` item: any run of whitespace, including none. -/
def scanSpace (s : List Char) : List Char :=
  s.dropWhile (·.isWhitespace)

/-- Days in a month of the proleptic Gregorian calendar. -/
def daysInMonth (y : Int) (m : Nat) : Nat :=
  if m = 2 then
    if y % 4 = 0 ∧ (y % 100 ≠ 0 ∨ y % 400 = 0) then 29 else 28
  else if m = 4 ∨ m = 6 ∨ m = 9 ∨ m = 11 then 30
  else 31

/-- Model of `Parsed::to_naive_date`: an unrepresentable year/month/day combination is
`OutOfRange`. -/
def resolveDate (y : Int) (m d : Nat) : Except ChronoError NaiveDate :=
  if 1 ≤ m ∧ m ≤ 12 ∧ 1 ≤ d ∧ d ≤ daysInMonth y m then
    .ok ⟨y, m, d⟩
  else
    .error .outOfRange

/-- Model of `Parsed::to_naive_time`: an unrepresentable time of day is
`OutOfRange`. -/
def resolveTime (h mi s : Nat) : Except ChronoError (Nat × Nat × Nat) :=
  if h ≤ 23 ∧ mi ≤ 59 ∧ s ≤ 59 then .ok (h, mi, s) else .error .outOfRange

/-- Model of `NaiveDateTime::parse_from_str(v, "%Y-%m-%d %H:%M:%S")`. -/
def parseFullDateTime (v : String) : Except ChronoError NaiveDateTime := do
  let s := v.toList
  let (y, s) ← scanNumber 4 s
  let s ← scanLit '-' s
  let (mo, s) ← scanNumber 2 s
  let s ← scanLit '-' s
  let (d, s) ← scanNumber 2 s
  let s := scanSpace s
  let (h, s) ← scanNumber 2 s
  let s ← scanLit ':' s
  let (mi, s) ← scanNumber 2 s
  let s ← scanLit ':' s
  let (sec, s) ← scanNumber 2 s
  if ¬ s.isEmpty then
    throw .tooLong
  else
    let date ← resolveDate (Int.ofNat y) mo d
    let (h, mi, sec) ← resolveTime h mi sec
    pure (date.and_hms h mi sec)

/-- Model of `NaiveDate::parse_from_str(v, "%Y-%m-%d")`. -/
def parseDateOnly (v : String) : Except ChronoError NaiveDate := do
  let s := v.toList
  let (y, s) ← scanNumber 4 s
  let s ← scanLit '-' s
  let (mo, s) ← scanNumber 2 s
  let s ← scanLit '-' s
  let (d, s) ← scanNumber 2 s
  if ¬ s.isEmpty then
    throw .tooLong
  else
    resolveDate (Int.ofNat y) mo d

/-- Model of `TdDateTimeVisitor::visit_str` (`core.rs` lines 221–235): try the full
format first; on failure try the date-only format and normalize to midnight;
when both fail, build the error message from the original text and the
date-only failure.  The inner `Err(e)` arm of the Rust `match` shadows the
outer one, so the message mentions only the second (date-only) parse error
— this shadowing is reproduced faithfully here. -/
def tdDateTimeVisitStr (v : String) : Except String NaiveDateTime :=
  match parseFullDateTime v with
  | .ok ndt => .ok ndt
  | .error _e =>
    match parseDateOnly v with
    | .ok nd => .ok (nd.and_hms 0 0 0)
    | .error e =>
      .error ("unexpected date time format of " ++ v ++ ": " ++ e.text)

/-- Substring test on character lists (used to state that an error message
does or does not mention a given text). -/
def listContainsSub (hay needle : List Char) : Bool :=
  (List.range (hay.length + 1)).any fun i => needle.isPrefixOf (hay.drop i)

example : tdDateTimeVisitStr "2022-09-20 00:00:00" =
    .ok ⟨2022, 9, 20, 0, 0, 0⟩ := by rfl

example : tdDateTimeVisitStr "2022-09-20" = .ok ⟨2022, 9, 20, 0, 0, 0⟩ := by
  rfl

example : parseFullDateTime "2022-09-31" = .error .tooShort := by rfl

example : tdDateTimeVisitStr "2022-09-31" =
    .error "unexpected date time format of 2022-09-31: input is out of range" := by
  rfl

/-! ## Rust `f64` parsing model

`TdRangeVisitor::visit_str` parses the two sides of a range with
`str::parse::<f64>()`.  The value of a finite float is embedded exactly, as
the rational number denoted by the accepted decimal literal. -/

/-- An `f64` as stored by the crate: a finite value (embedded exactly as a
rational), an infinity, or a NaN. -/
inductive FloatVal where
  | finite (q : ℚ)
  | inf
  | neginf
  | nan
  deriving DecidableEq, Repr

/-- Negation as applied by a leading `-` sign. -/
def FloatVal.neg : FloatVal → FloatVal
  | .finite q => .finite (-q)
  | .inf => .neginf
  | .neginf => .inf
  | .nan => .nan

/-- ASCII lower-casing of a character list (for the `inf`/`nan` keywords). -/
def lowerAll (s : List Char) : List Char :=
  s.map fun c => c.toLower

/-- The exact rational value of the decimal `mantissa * 10 ^ (expUp - expDown)`
(a signed power of ten split into its non-negative and non-positive parts),
expressed through `Rat.ofScientific` — the same function a Lean decimal
literal elaborates to, so that parsed values compare definitionally with
literals. -/
def decValue (mantissa expUp expDown : Nat) : ℚ :=
  if expDown ≤ expUp then
    Rat.ofScientific (mantissa * 10 ^ (expUp - expDown)) true 0
  else
    Rat.ofScientific mantissa true (expDown - expUp)

/-- The digits of an unsigned decimal literal `int [. frac] [(e|E) [±] digits]`
after the optional sign, as accepted by the Rust `f64` grammar: at least one
digit in the mantissa (integer and fractional part together), and a non-empty
exponent after `e`/`E` when present.  Returns the exact value. -/
def parseDecimalBody (s : List Char) : Option ℚ :=
  let intDs := s.takeWhile (·.isDigit)
  let rest1 := s.drop intDs.length
  let (fracDs, rest2) : List Char × List Char :=
    match rest1 with
    | '.' :: t => (t.takeWhile (·.isDigit), t.drop (t.takeWhile (·.isDigit)).length)
    | _ => ([], rest1)
  if intDs.isEmpty ∧ fracDs.isEmpty then
    none
  else
    let mantissa := digitsToNat (intDs ++ fracDs)
    match rest2 with
    | [] => some (decValue mantissa 0 fracDs.length)
    | c :: t =>
      if c = 'e' ∨ c = 'E' then
        let (expNeg, t') : Bool × List Char :=
          match t with
          | '+' :: t' => (false, t')
          | '-' :: t' => (true, t')
          | _ => (false, t)
        let expDs := t'.takeWhile (·.isDigit)
        if expDs.isEmpty ∨ ¬ (t'.drop expDs.length).isEmpty then
          none
        else if expNeg then
          some (decValue mantissa 0 (fracDs.length + digitsToNat expDs))
        else
          some (decValue mantissa (digitsToNat expDs) fracDs.length)
      else
        none

/-- Model of `str::parse::<f64>()`: optional sign, then `inf`/`infinity`/`nan`
(ASCII-case-insensitive) or a decimal literal.  The two error messages are
the `Display` texts of `std::num::ParseFloatError`. -/
def rustParseF64 (s : String) : Except String FloatVal :=
  if s.isEmpty then
    .error "cannot parse float from empty string"
  else
    let cs := s.toList
    let (negSign, body) :=
      match cs with
      | '+' :: t => (false, t)
      | '-' :: t => (true, t)
      | _ => (false, cs)
    let unsigned : Option FloatVal :=
      if lowerAll body = "inf".toList ∨ lowerAll body = "infinity".toList then
        some .inf
      else if lowerAll body = "nan".toList then
        some .nan
      else
        (parseDecimalBody body).map .finite
    match unsigned with
    | some v => .ok (if negSign then v.neg else v)
    | none => .error "invalid float literal"

/-! ## The range codec -/

/-- The type `std::ops::Range<f64>` as used by `FiftyTwoWeekStats::range`: Rust field
names `start` and `end` (`end` is a Lean keyword, hence `start_` / `end_`). -/
structure FRange where
  start_ : FloatVal
  end_ : FloatVal
  deriving DecidableEq, Repr

/-- First index (in characters) at which `needle` occurs in the list, like
the Rust `str::find` (the Rust index is in bytes, but the needle used by the
crate, `" - "`, is ASCII, so both indexings cut the string at the same
place). -/
def firstIdxFrom (needle : List Char) : List Char → Option Nat
  | [] => if needle.isEmpty then some 0 else none
  | h :: t =>
    if needle.isPrefixOf (h :: t) then some 0
    else (firstIdxFrom needle t).map (· + 1)

/-- The three-character range separator `" - "`. -/
def rangeSep : List Char := [' ', '-', ' ']

/-- Model of `TdRangeVisitor::visit_str` (`core.rs` lines 253–279): locate the first
occurrence of `" - "`, split there, drop the three separator characters from
the right part, and parse the two sides independently as `f64`. -/
def tdRangeVisitStr (v : String) : Except String FRange :=
  match firstIdxFrom rangeSep v.toList with
  | none => .error "couldn't find the range separator"
  | some idx =>
    let first := String.mk (v.toList.take idx)
    let second := String.mk (v.toList.drop (idx + 3))
    match rustParseF64 first with
    | .error e => .error ("failed to parse the first range value: " ++ e)
    | .ok a =>
      match rustParseF64 second with
      | .error e => .error ("failed to parse the second range value: " ++ e)
      | .ok b => .ok ⟨a, b⟩

example : rustParseF64 "129.039993" = .ok (.finite (129.039993 : ℚ)) := by
  rfl

example : tdRangeVisitStr "129.039993 - 182.940002" =
    .ok ⟨.finite (129.039993 : ℚ), .finite (182.940002 : ℚ)⟩ := by rfl

example : tdRangeVisitStr "abc" = .error "couldn't find the range separator" := by
  rfl

example : tdRangeVisitStr "1 - x" =
    .error "failed to parse the second range value: invalid float literal" := by
  rfl

/-! ## The dispatcher (`TwelveData::send`, `lib.rs` lines 55–88)

The transport (`HttpClient::get`) and the textual JSON parse
(`serde_json::from_str`) are external collaborators: `send` below receives
the transport outcome with the body already paired with its parse result (a
parsed `Json` value, or the parse-error text).  Everything from the status
check onwards is translated from the Rust source.  The Rust `unwrap()` on a
non-string `message` value aborts the process; that control path is embedded
as the explicit `SendResult.panic` outcome. -/

/-- A `serde_json::Value`.  Object fields are kept as an association list;
numbers are carried exactly as rationals. -/
inductive Json where
  | null
  | bool (b : Bool)
  | num (q : ℚ)
  | str (s : String)
  | arr (items : List Json)
  | obj (fields : List (String × Json))

/-- Model of `serde_json::Value::get(key)`: `None` unless the value is an object with
that key. -/
def Json.get? : Json → String → Option Json
  | .obj fields, k => fields.lookup k
  | _, _ => none

/-- Model of `Value::as_str()`. -/
def Json.asStr : Json → Option String
  | .str s => some s
  | _ => none

/-- Model of `Value::is_string()`. -/
def Json.isString (j : Json) : Bool :=
  (j.asStr).isSome

/-- The crate `Error` enum (`errors.rs` lines 7–20).  The wrapped foreign
payloads (`reqwest`/`surf` errors, `serde_urlencoded`/`serde_json` errors)
are carried as their message text. -/
inductive Error where
  | httpError (detail : String)
  | queryConstruction (detail : String)
  | responseParsing (detail : String)
  | dataError (reason : String)
  deriving DecidableEq, Repr

/-- The outcome of one `send` call: a decoded response, an `Error`, or a
process abort (a Rust panic — `send` never returns in that case). -/
inductive SendResult (U : Type) where
  | ok (u : U)
  | fail (e : Error)
  | panic (msg : String)
  deriving DecidableEq, Repr

/-- The transport outcome consumed by `send`: either a transport-level
`Error`, or an HTTP status code together with the JSON parse result of the body
(`Except.error` carries the `serde_json` parse-error text for a malformed
body). -/
def TransportOutcome : Type := Except Error (Nat × Except String Json)

/-- The body classification of `TwelveData::send` for an HTTP-200, parsed
body (`lib.rs` lines 66–84): reject a non-string `status`; on
`status == "error"` extract `message` (panicking, like the Rust `unwrap()`,
when `message` is present but not a string; substituting the crate literal
`"<unknown reasuon>"` placeholder when it is absent); otherwise run the
typed decode, any decode failure becoming a `ResponseParsing` error. -/
def classifyBody {U : Type} (decode : Json → Except String U) (val : Json) :
    SendResult U :=
  let decodeStep : SendResult U :=
    match decode val with
    | .ok u => .ok u
    | .error e => .fail (.responseParsing e)
  match val.get? "status" with
  | none => decodeStep
  | some status =>
    if ¬ status.isString then
      .fail (.dataError "status value in the response is not a string")
    else if status.asStr = some "error" then
      match val.get? "message" with
      | some errorMessage =>
        match errorMessage.asStr with
        | some reason => .fail (.dataError reason)
        | none => .panic "called `Option::unwrap()` on a `None` value"
      | none => .fail (.dataError "<unknown reasuon>")
    else
      decodeStep

/-- Model of `TwelveData::send` (`lib.rs` lines 55–88) from the transport call
onwards: a transport failure propagates as-is; a non-200 status yields a
`DataError` carrying the numeric status; a 200 status parses the body (a
malformed body yields a `ResponseParsing` error) and classifies it. -/
def send {U : Type} (decode : Json → Except String U)
    (transport : TransportOutcome) : SendResult U :=
  match transport with
  | .error e => .fail e
  | .ok (status, parsedBody) =>
    if status = 200 then
      match parsedBody with
      | .error e => .fail (.responseParsing e)
      | .ok val => classifyBody decode val
    else
      .fail (.dataError ("status " ++ toString status))

/-- The identity decode, used to instantiate `send` at concrete inputs. -/
def decodeId : Json → Except String Json := fun j => .ok j

example :
    send decodeId (.ok (200, .ok (.obj [("status", .str "error"), ("message", .str "bad symbol")]))) =
      .fail (.dataError "bad symbol") := by rfl

example :
    send decodeId (.ok (429, .ok (.obj []))) =
      .fail (.dataError "status 429") := by rfl

example :
    send decodeId (.ok (200, .ok (.obj [("status", .str "error"), ("message", .num 5)]))) =
      .panic "called `Option::unwrap()` on a `None` value" := by rfl

/-! ## The request model and its query-string encoding

`serde_urlencoded::to_string(req)` serializes each request struct to
`name=value` pairs in field declaration order.  The `#[serde(flatten)]`
attribute on the `common` field routes the whole struct through the serde map
serializer, so the `CommonQueryParameters` entries land at the same top
level as the own fields of the owning request.  An `Option` field that is `None`
contributes no pair at all: the `serde_urlencoded` value serializer skips
`None` entirely (the crate attribute `#[skip_serializing_none]` is written after
`#[derive(Serialize)]` and therefore has no effect on the derived impl, but
the omission behaviour holds regardless).  The encoding is modelled up to
URL percent-escaping: `encode` returns the pair list that
`serde_urlencoded` then joins with `=` and `&` and escapes. -/

/-- The `Interval` enum with its serde wire names (`lib.rs` lines 91–125). -/
inductive Interval where
  | minute
  | fiveMinutes
  | fifteenMinutes
  | thirtyMinutes
  | fortyFiveMinutes
  | hour
  | twoHours
  | fourHours
  | day
  | week
  | month
  deriving DecidableEq, Repr

/-- Serde wire name of an `Interval` value (the `#[serde(rename = ...)]`
names, which coincide with the `Display` impl). -/
def Interval.wire : Interval → String
  | .minute => "1min"
  | .fiveMinutes => "5min"
  | .fifteenMinutes => "15min"
  | .thirtyMinutes => "30min"
  | .fortyFiveMinutes => "45min"
  | .hour => "1h"
  | .twoHours => "2h"
  | .fourHours => "4h"
  | .day => "1day"
  | .week => "1week"
  | .month => "1month"

/-- The enum `InstrumentType` (`lib.rs` lines 149–155); unit variants serialize as
their names. -/
inductive InstrumentType where
  | stock
  | index
  | etf
  | reit
  deriving DecidableEq, Repr

/-- Serde wire name of an `InstrumentType` value. -/
def InstrumentType.wire : InstrumentType → String
  | .stock => "Stock"
  | .index => "Index"
  | .etf => "ETF"
  | .reit => "REIT"

/-- The enum `OutputFormat` (`lib.rs` lines 157–161). -/
inductive OutputFormat where
  | json
  | csv
  deriving DecidableEq, Repr

/-- Serde wire name of an `OutputFormat` value. -/
def OutputFormat.wire : OutputFormat → String
  | .json => "JSON"
  | .csv => "CSV"

/-- The enum `Order` (`lib.rs` lines 201–205). -/
inductive SortOrder where
  | asc
  | desc
  deriving DecidableEq, Repr

/-- Serde wire name of an `Order` value (the Rust enum is named `Order`;
`SortOrder` here avoids clashing with the Mathlib `Order` namespace). -/
def SortOrder.wire : SortOrder → String
  | .asc => "ASC"
  | .desc => "DESC"

/-- the chrono serde serialization of a `NaiveDateTime`:
`%Y-%m-%dT%H:%M:%S` (the fractional part is omitted when zero, and the
embedded values carry whole seconds only). -/
def NaiveDateTime.wire (dt : NaiveDateTime) : String :=
  let pad2 : Nat → String := fun n =>
    if n < 10 then "0" ++ toString n else toString n
  let pad4 : Int → String := fun y =>
    if 0 ≤ y ∧ y < 1000 then
      if y < 10 then "000" ++ toString y
      else if y < 100 then "00" ++ toString y
      else "0" ++ toString y
    else toString y
  pad4 dt.year ++ "-" ++ pad2 dt.month ++ "-" ++ pad2 dt.day ++ "T" ++
    pad2 dt.hour ++ ":" ++ pad2 dt.minute ++ ":" ++ pad2 dt.second

/-- The struct `CommonQueryParameters` (`lib.rs` lines 169–199): the optional-field bag
shared by several request types.  `decimal_places` is a `u8` in Rust;
values, not bit-width, are what the encoding properties depend on. -/
structure CommonQueryParameters where
  exchange : Option String
  mic_code : Option String
  country : Option String
  instrument_type : Option InstrumentType
  format : Option OutputFormat
  delimiter : Option String
  decimal_places : Option Nat
  timezone : Option String
  deriving DecidableEq, Repr

/-- One optional query pair: nothing when the field is absent, one
`name=value` pair when present. -/
def optPair (name : String) (v : Option String) : List (String × String) :=
  match v with
  | none => []
  | some s => [(name, s)]

/-- Encoding of the common bag, in field declaration order, with the serde
renames `type` (for `instrument_type`) and `dp` (for `decimal_places`). -/
def CommonQueryParameters.encode (c : CommonQueryParameters) :
    List (String × String) :=
  optPair "exchange" c.exchange ++
  optPair "mic_code" c.mic_code ++
  optPair "country" c.country ++
  optPair "type" (c.instrument_type.map InstrumentType.wire) ++
  optPair "format" (c.format.map OutputFormat.wire) ++
  optPair "delimiter" c.delimiter ++
  optPair "dp" (c.decimal_places.map toString) ++
  optPair "timezone" c.timezone

/-- The struct `TimeSeriesRequest` (`core.rs` lines 10–42).  `output_size` is a `u16`
renamed to `outputsize` on the wire. -/
structure TimeSeriesRequest where
  common : CommonQueryParameters
  symbol : String
  interval : Interval
  output_size : Option Nat
  order : Option SortOrder
  start_date : Option NaiveDateTime
  end_date : Option NaiveDateTime
  previous_close : Option Bool
  deriving DecidableEq, Repr

/-- Query-pair encoding of a `TimeSeriesRequest`: the flattened common bag
first (it is the first declared field), then the own fields of the request in
declaration order. -/
def TimeSeriesRequest.encode (r : TimeSeriesRequest) :
    List (String × String) :=
  r.common.encode ++
  [("symbol", r.symbol), ("interval", r.interval.wire)] ++
  optPair "outputsize" (r.output_size.map toString) ++
  optPair "order" (r.order.map SortOrder.wire) ++
  optPair "start_date" (r.start_date.map NaiveDateTime.wire) ++
  optPair "end_date" (r.end_date.map NaiveDateTime.wire) ++
  optPair "previous_close" (r.previous_close.map (fun b => toString b))

/-- The struct `QuoteRequest` (`core.rs` lines 82–102).  `end_of_day` is renamed to
`eod` on the wire. -/
structure QuoteRequest where
  common : CommonQueryParameters
  symbol : String
  interval : Interval
  volume_time_period : Option Nat
  end_of_day : Option Bool
  rolling_period : Option Nat
  deriving DecidableEq, Repr

/-- Query-pair encoding of a `QuoteRequest`. -/
def QuoteRequest.encode (r : QuoteRequest) : List (String × String) :=
  r.common.encode ++
  [("symbol", r.symbol), ("interval", r.interval.wire)] ++
  optPair "volume_time_period" (r.volume_time_period.map toString) ++
  optPair "eod" (r.end_of_day.map (fun b => toString b)) ++
  optPair "rolling_period" (r.rolling_period.map toString)

/-- The struct `PriceRequest` (`core.rs` lines 169–194). -/
structure PriceRequest where
  common : CommonQueryParameters
  symbol : String
  output_size : Option Nat
  order : Option SortOrder
  start_date : Option NaiveDateTime
  end_date : Option NaiveDateTime
  previous_close : Option Bool
  deriving DecidableEq, Repr

/-- Query-pair encoding of a `PriceRequest`. -/
def PriceRequest.encode (r : PriceRequest) : List (String × String) :=
  r.common.encode ++
  [("symbol", r.symbol)] ++
  optPair "outputsize" (r.output_size.map toString) ++
  optPair "order" (r.order.map SortOrder.wire) ++
  optPair "start_date" (r.start_date.map NaiveDateTime.wire) ++
  optPair "end_date" (r.end_date.map NaiveDateTime.wire) ++
  optPair "previous_close" (r.previous_close.map (fun b => toString b))

/-- The struct `LogoRequest` (`fundamentals.rs` lines 5–13): four required fields, no
optional ones. -/
structure LogoRequest where
  symbol : String
  exchange : String
  mic_code : String
  country : String
  deriving DecidableEq, Repr

/-- Query-pair encoding of a `LogoRequest`. -/
def LogoRequest.encode (r : LogoRequest) : List (String × String) :=
  [("symbol", r.symbol), ("exchange", r.exchange),
   ("mic_code", r.mic_code), ("country", r.country)]

/-- The keys of a pair list. -/
def keysOf (l : List (String × String)) : List String :=
  l.map Prod.fst

@[simp]
theorem keysOf_append (l₁ l₂ : List (String × String)) :
    keysOf (l₁ ++ l₂) = keysOf l₁ ++ keysOf l₂ := by
  simp [keysOf]

@[simp]
theorem mem_keysOf_optPair (k n : String) (v : Option String) :
    k ∈ keysOf (optPair n v) ↔ k = n ∧ v ≠ none := by
  cases v <;> simp [optPair, keysOf]

@[simp]
theorem mem_keysOf_cons (k n s : String) (l : List (String × String)) :
    k ∈ keysOf ((n, s) :: l) ↔ k = n ∨ k ∈ keysOf l := by
  simp [keysOf]

@[simp]
theorem mem_optPair (k s n : String) (v : Option String) :
    (k, s) ∈ optPair n v ↔ k = n ∧ v = some s := by
  cases v <;> simp [optPair]
  exact fun _ => ⟨fun h => h.symm, fun h => h.symm⟩

/-! ## The `QuoteResponse` decode (`core.rs` lines 104–167)

Field-by-field translation of the derived serde `Deserialize` for
`QuoteResponse` and `FiftyTwoWeekStats`:

* plain fields require the matching JSON literal type;
* `#[serde_as(as = "DisplayFromStr")]` fields require a JSON string and run
  the `f64` parser on it;
* `#[serde_as(as = "Option<DisplayFromStr>")] #[serde(default)]` fields
  decode to `none` when absent or `null`, and through the numeric-string
  codec when present as a string;
* `#[serde(default)] is_market_open: bool` decodes to `false` when absent;
* `#[serde(default)] fifty_two_week` decodes to the derived
  `Default::default()` value when absent (all-zero `f64` fields, and a
  `Range` of `0.0..0.0`);
* unknown fields are ignored (no `deny_unknown_fields`).

The exact serde error texts are abbreviated; no claim depends on them, only
on which inputs fail. -/

/-- Look a field up in a decoded JSON object. -/
def getField (fields : List (String × Json)) (k : String) : Option Json :=
  fields.lookup k

/-- Decode a required JSON string. -/
def decodeString (j : Json) : Except String String :=
  match j with
  | .str s => .ok s
  | _ => .error "invalid type: expected a string"

/-- Decode a required `i64` (a JSON integer). -/
def decodeI64 (j : Json) : Except String Int :=
  match j with
  | .num q => if q.den = 1 then .ok q.num else .error "invalid type: expected an integer"
  | _ => .error "invalid type: expected an integer"

/-- Decode a required JSON bool. -/
def decodeBool (j : Json) : Except String Bool :=
  match j with
  | .bool b => .ok b
  | _ => .error "invalid type: expected a boolean"

/-- The codec `DisplayFromStr` for `f64`: require a JSON string and parse it with
the Rust `f64` parser. -/
def decodeF64Str (j : Json) : Except String FloatVal :=
  match j with
  | .str s => rustParseF64 s
  | _ => .error "invalid type: expected a string"

/-- Model of `deserialize_td_datetime`: require a JSON string and run the
`TdDateTimeVisitor`. -/
def decodeTdDatetime (j : Json) : Except String NaiveDateTime :=
  match j with
  | .str s => tdDateTimeVisitStr s
  | _ => .error "invalid type: expected a string"

/-- Model of `deserialize_td_range`: require a JSON string and run the
`TdRangeVisitor`. -/
def decodeTdRange (j : Json) : Except String FRange :=
  match j with
  | .str s => tdRangeVisitStr s
  | _ => .error "invalid type: expected a string"

/-- A required field: absence is a decode error. -/
def requireField {α : Type} (fields : List (String × Json)) (k : String)
    (dec : Json → Except String α) : Except String α :=
  match getField fields k with
  | none => .error ("missing field " ++ k)
  | some j => dec j

/-- An `Option<DisplayFromStr>` `f64` field with `#[serde(default)]`: absent
or `null` decodes to `none`; a string goes through the numeric-string
codec; any other JSON type is rejected. -/
def decodeOptF64Str (fields : List (String × Json)) (k : String) :
    Except String (Option FloatVal) :=
  match getField fields k with
  | none => .ok none
  | some .null => .ok none
  | some (.str s) => (rustParseF64 s).map some
  | some _ => .error "invalid type: expected a string or null"

/-- The struct `FiftyTwoWeekStats` (`core.rs` lines 150–167). -/
structure FiftyTwoWeekStats where
  low : FloatVal
  high : FloatVal
  low_change : FloatVal
  high_change : FloatVal
  low_change_percent : FloatVal
  high_change_percent : FloatVal
  range : FRange
  deriving DecidableEq, Repr

/-- The derived `Default::default()` for `FiftyTwoWeekStats`: `f64` fields
default to `0.0` and `Range<f64>` to `0.0..0.0`. -/
def FiftyTwoWeekStats.default : FiftyTwoWeekStats :=
  ⟨.finite 0, .finite 0, .finite 0, .finite 0, .finite 0, .finite 0,
   ⟨.finite 0, .finite 0⟩⟩

/-- Decode a `FiftyTwoWeekStats` object. -/
def decodeFiftyTwoWeek (j : Json) : Except String FiftyTwoWeekStats :=
  match j with
  | .obj fields => do
    let low ← requireField fields "low" decodeF64Str
    let high ← requireField fields "high" decodeF64Str
    let low_change ← requireField fields "low_change" decodeF64Str
    let high_change ← requireField fields "high_change" decodeF64Str
    let low_change_percent ← requireField fields "low_change_percent" decodeF64Str
    let high_change_percent ← requireField fields "high_change_percent" decodeF64Str
    let range ← requireField fields "range" decodeTdRange
    pure ⟨low, high, low_change, high_change, low_change_percent,
      high_change_percent, range⟩
  | _ => .error "invalid type: expected an object"

/-- The struct `QuoteResponse` (`core.rs` lines 104–148).  The Rust field `open` is a
Lean keyword, hence `open_`. -/
structure QuoteResponse where
  symbol : String
  name : String
  exchange : String
  mic_code : String
  currency : String
  timestamp : Int
  datetime : NaiveDateTime
  open_ : FloatVal
  high : FloatVal
  low : FloatVal
  close : FloatVal
  volume : FloatVal
  previous_close : FloatVal
  change : FloatVal
  percent_change : FloatVal
  average_volume : FloatVal
  rolling_1d_change : Option FloatVal
  rolling_7d_change : Option FloatVal
  rolling_period_change : Option FloatVal
  is_market_open : Bool
  fifty_two_week : FiftyTwoWeekStats
  deriving DecidableEq, Repr

/-- The `is_market_open` field: `#[serde(default)]` on a `bool` decodes an
absent field to `false`. -/
def decodeMarketOpen (fields : List (String × Json)) : Except String Bool :=
  match getField fields "is_market_open" with
  | none => .ok false
  | some j => decodeBool j

/-- The `fifty_two_week` field: `#[serde(default)]` decodes an absent field
to the derived `Default` value. -/
def decodeFiftyTwoWeekField (fields : List (String × Json)) :
    Except String FiftyTwoWeekStats :=
  match getField fields "fifty_two_week" with
  | none => .ok FiftyTwoWeekStats.default
  | some j => decodeFiftyTwoWeek j

/-- Decode a `QuoteResponse` from a JSON value. -/
def decodeQuoteResponse (j : Json) : Except String QuoteResponse :=
  match j with
  | .obj fields => do
    let symbol ← requireField fields "symbol" decodeString
    let name ← requireField fields "name" decodeString
    let exchange ← requireField fields "exchange" decodeString
    let mic_code ← requireField fields "mic_code" decodeString
    let currency ← requireField fields "currency" decodeString
    let timestamp ← requireField fields "timestamp" decodeI64
    let datetime ← requireField fields "datetime" decodeTdDatetime
    let open_ ← requireField fields "open" decodeF64Str
    let high ← requireField fields "high" decodeF64Str
    let low ← requireField fields "low" decodeF64Str
    let close ← requireField fields "close" decodeF64Str
    let volume ← requireField fields "volume" decodeF64Str
    let previous_close ← requireField fields "previous_close" decodeF64Str
    let change ← requireField fields "change" decodeF64Str
    let percent_change ← requireField fields "percent_change" decodeF64Str
    let average_volume ← requireField fields "average_volume" decodeF64Str
    let rolling_1d_change ← decodeOptF64Str fields "rolling_1d_change"
    let rolling_7d_change ← decodeOptF64Str fields "rolling_7d_change"
    let rolling_period_change ← decodeOptF64Str fields "rolling_period_change"
    let is_market_open ← decodeMarketOpen fields
    let fifty_two_week ← decodeFiftyTwoWeekField fields
    pure ⟨symbol, name, exchange, mic_code, currency, timestamp, datetime,
      open_, high, low, close, volume, previous_close, change,
      percent_change, average_volume, rolling_1d_change, rolling_7d_change,
      rolling_period_change, is_market_open, fifty_two_week⟩
  | _ => .error "invalid type: expected an object"

/-- The JSON body of the crate test `test_quote_response`
(`core.rs` lines 300–312), already parsed: every required field present,
`rolling_*` fields absent, `is_market_open` and `fifty_two_week` present. -/
def quoteTestBody : List (String × Json) :=
  [("symbol", .str "AAPL"), ("name", .str "Apple Inc"),
   ("exchange", .str "NASDAQ"), ("mic_code", .str "XNGS"),
   ("currency", .str "USD"), ("datetime", .str "2022-09-20"),
   ("timestamp", .num 1663703999),
   ("open", .str "153.39999"), ("high", .str "158.08000"),
   ("low", .str "153.08000"), ("close", .str "156.89999"),
   ("volume", .str "107547900"), ("previous_close", .str "154.48000"),
   ("change", .str "2.42000"), ("percent_change", .str "1.56654"),
   ("average_volume", .str "99764040"), ("is_market_open", .bool false),
   ("fifty_two_week", .obj
     [("low", .str "129.03999"), ("high", .str "182.94000"),
      ("low_change", .str "27.86000"), ("high_change", .str "-26.04001"),
      ("low_change_percent", .str "21.59021"),
      ("high_change_percent", .str "-14.23418"),
      ("range", .str "129.039993 - 182.940002")])]

/-- The same body with `is_market_open` and `fifty_two_week` also absent. -/
def quoteBodyNoDefaults : List (String × Json) :=
  quoteTestBody.filter fun kv =>
    ¬ (kv.1 = "is_market_open" ∨ kv.1 = "fifty_two_week")

example :
    (decodeQuoteResponse (.obj quoteTestBody)).map
      (fun r => (r.rolling_1d_change, r.fifty_two_week.range)) =
    .ok (none, ⟨.finite (129.039993 : ℚ), .finite (182.940002 : ℚ)⟩) := by
  rfl

example :
    (decodeQuoteResponse (.obj quoteBodyNoDefaults)).map
      (fun r => (r.is_market_open, r.fifty_two_week)) =
    .ok (false, FiftyTwoWeekStats.default) := by
  rfl

/-! ## Theorems -/

/-- The reason string extracted from an error envelope: the string value of the
`message` field when present as a string, else the crate placeholder. -/
def errorReason (val : Json) : String :=
  match val.get? "message" with
  | some (Json.str s) => s
  | _ => "<unknown reasuon>"

/-- C1 (amended): for every HTTP-200 body parsing to a JSON value whose
top-level `status` field is the string `"error"`, and in which any `message`
field present is a JSON string, `send` returns a `DataError` carrying the
`message` value (or the crate placeholder `"<unknown reasuon>"`
when `message` is absent), and never returns a decoded typed response for
such a body; a `message` present as a non-string instead panics (see the
counterexample). -/
theorem c1_error_envelope {U : Type} (decode : Json → Except String U)
    (val : Json)
    (hstatus : val.get? "status" = some (.str "error"))
    (hmsg : ∀ m, val.get? "message" = some m → m.isString = true) :
    send decode (.ok (200, .ok val)) = .fail (.dataError (errorReason val)) ∧
    ∀ u, send decode (.ok (200, .ok val)) ≠ .ok u := by
  have hmain : send decode (.ok (200, .ok val)) =
      .fail (.dataError (errorReason val)) := by
    simp only [send, classifyBody, hstatus, errorReason]
    cases hm : val.get? "message" with
    | none => simp [Json.isString, Json.asStr]
    | some m =>
      have := hmsg m hm
      cases m <;> simp_all [Json.isString, Json.asStr]
  exact ⟨hmain, fun u h => by rw [hmain] at h; exact SendResult.noConfusion h⟩

/-- C1 witness: the example envelope used by the spec
`\x7b"status":"error","message":"bad symbol"\x7d` with HTTP 200 yields a
`DataError` with reason `"bad symbol"`. -/
theorem c1_error_envelope_witness :
    send decodeId (.ok (200, .ok (.obj
      [("status", .str "error"), ("message", .str "bad symbol")]))) =
      .fail (.dataError "bad symbol") := by
  have h := c1_error_envelope decodeId
    (.obj [("status", .str "error"), ("message", .str "bad symbol")])
    (by rfl)
    (by
      intro m hm
      rw [show (Json.obj [("status", .str "error"),
        ("message", .str "bad symbol")]).get? "message" =
          some (.str "bad symbol") from rfl] at hm
      injection hm with hm'
      rw [← hm']
      rfl)
  exact h.1

/-- C1 counterexample: on the HTTP-200 body
`\x7b"status":"error","message":1\x7d` — whose `status` is `"error"` and
whose `message` is present but not a string — `send` does not return a
`DataError` carrying anything (the claim demands one): it panics on the
`unwrap()` of `message.as_str()`. -/
theorem c1_counterexample :
    send decodeId (.ok (200, .ok (.obj
      [("status", .str "error"), ("message", .num 1)]))) =
      .panic "called `Option::unwrap()` on a `None` value" ∧
    ∀ reason, send decodeId (.ok (200, .ok (.obj
      [("status", .str "error"), ("message", .num 1)]))) ≠
        .fail (.dataError reason) := by
  refine ⟨rfl, fun reason h => ?_⟩
  rw [show send decodeId (.ok (200, .ok (.obj
      [("status", .str "error"), ("message", .num 1)]))) =
      .panic "called `Option::unwrap()` on a `None` value" from rfl] at h
  exact SendResult.noConfusion h

/-- C2 (amended): only the exact HTTP status 200 proceeds to parse and
decode the body; every other status — other 2xx codes such as 201
included — yields a `DataError` carrying the numeric status, without the
parse outcome of the body ever being inspected. -/
theorem c2_status_gate {U : Type} (decode : Json → Except String U)
    (status : Nat) (parsedBody : Except String Json) :
    (status ≠ 200 →
      send decode (.ok (status, parsedBody)) =
        .fail (.dataError ("status " ++ toString status))) ∧
    (∀ val u, status = 200 → parsedBody = .ok val → decode val = .ok u →
      val.get? "status" = none →
      send decode (.ok (status, parsedBody)) = .ok u) := by
  constructor
  · intro hne
    simp [send, hne]
  · intro val u h200 hbody hdec hstatus
    subst h200 hbody
    simp [send, classifyBody, hstatus, hdec]

/-- C2 witness: HTTP 429 yields `DataError "status 429"` regardless of the
body, and HTTP 200 with a decodable body reaches the typed decode. -/
theorem c2_status_gate_witness :
    send decodeId (.ok (429, .ok (.obj []))) =
      .fail (.dataError "status 429") ∧
    send decodeId (.ok (200, .ok (.obj []))) = .ok (.obj []) := by
  exact ⟨(c2_status_gate decodeId 429 (.ok (.obj []))).1 (by decide),
    (c2_status_gate decodeId 200 (.ok (.obj []))).2 (.obj []) (.obj [])
      rfl rfl rfl rfl⟩

/-- C2 counterexample: HTTP 201 is in the 2xx range and the body `\x7b\x7d`
parses and decodes, yet `send` does not proceed to decode: it returns
`DataError "status 201"`. -/
theorem c2_counterexample :
    send decodeId (.ok (201, .ok (.obj []))) =
      .fail (.dataError "status 201") ∧
    send decodeId (.ok (201, .ok (.obj []))) ≠ .ok (.obj []) := by
  refine ⟨rfl, fun h => ?_⟩
  rw [show send decodeId (.ok (201, .ok (.obj []))) =
      .fail (.dataError "status 201") from rfl] at h
  exact SendResult.noConfusion h

/-- C7: the claim that `send` never panics — in particular when an error
envelope carries a non-string `message` — is contradicted by the code: on
the HTTP-200 body `\x7b"status":"error","message":5\x7d` the
`error_message.as_str().unwrap()` in `lib.rs` line 75 is an `unwrap()` of
`None`, which panics instead of returning a distinguishable error value. -/
theorem c7_panic_on_nonstring_message :
    send decodeId (.ok (200, .ok (.obj
      [("status", .str "error"), ("message", .num 5)]))) =
      .panic "called `Option::unwrap()` on a `None` value" := by
  rfl

/-- C8: for every HTTP-200 JSON body whose top-level `status` field is
present but not a JSON string, `send` returns a `DataError` (with the fixed
reason text of `lib.rs` lines 69–71) rather than ignoring the field and
decoding the typed response. -/
theorem c8_nonstring_status (U : Type) (decode : Json → Except String U)
    (val : Json) (s : Json)
    (hstatus : val.get? "status" = some s)
    (hns : s.isString = false) :
    send decode (.ok (200, .ok val)) =
      .fail (.dataError "status value in the response is not a string") := by
  simp [send, classifyBody, hstatus, hns]

/-- C8 witness: an HTTP-200 body with `status` equal to the number 1 is
rejected as a `DataError`. -/
theorem c8_nonstring_status_witness :
    send decodeId (.ok (200, .ok (.obj [("status", .num 1)]))) =
      .fail (.dataError "status value in the response is not a string") :=
  c8_nonstring_status Json decodeId (.obj [("status", .num 1)]) (.num 1)
    rfl rfl

/-- C3 (amended): `tdDateTimeVisitStr` tries the full-timestamp format
first and returns its result on success; on failure it tries the date-only
format and normalizes a success to midnight; when both fail, the error
names the original input text and the date-only parse failure (the
full-timestamp failure is shadowed in the source and not reported — see the
counterexample).  In particular `"2022-09-20 00:00:00"` and `"2022-09-20"`
decode to the identical midnight timestamp. -/
theorem c3_decode_datetime :
    (∀ v : String,
      (∀ t, parseFullDateTime v = .ok t → tdDateTimeVisitStr v = .ok t) ∧
      (∀ e d, parseFullDateTime v = .error e → parseDateOnly v = .ok d →
        tdDateTimeVisitStr v = .ok (d.and_hms 0 0 0)) ∧
      (∀ e₁ e₂, parseFullDateTime v = .error e₁ →
        parseDateOnly v = .error e₂ →
        tdDateTimeVisitStr v =
          .error ("unexpected date time format of " ++ v ++ ": " ++ e₂.text))) ∧
    tdDateTimeVisitStr "2022-09-20 00:00:00" = tdDateTimeVisitStr "2022-09-20" ∧
    tdDateTimeVisitStr "2022-09-20" = .ok ⟨2022, 9, 20, 0, 0, 0⟩ := by
  refine ⟨fun v => ⟨?_, ?_, ?_⟩, rfl, rfl⟩
  · intro t h
    simp [tdDateTimeVisitStr, h]
  · intro e d h₁ h₂
    simp [tdDateTimeVisitStr, h₁, h₂]
  · intro e₁ e₂ h₁ h₂
    simp [tdDateTimeVisitStr, h₁, h₂]

/-- C3 counterexample: on `"2022-09-31"` both parses fail — the full format
with `TooShort` ("premature end of input": the time part is missing), the
date-only format with `OutOfRange` (September has no day 31) — yet the
produced error message names only the date-only failure: the text of the
full-format failure does not occur in it, so the error does not name both
underlying parse failures as claimed. -/
theorem c3_counterexample :
    parseFullDateTime "2022-09-31" = .error .tooShort ∧
    parseDateOnly "2022-09-31" = .error .outOfRange ∧
    tdDateTimeVisitStr "2022-09-31" =
      .error "unexpected date time format of 2022-09-31: input is out of range" ∧
    listContainsSub
      "unexpected date time format of 2022-09-31: input is out of range".toList
      (ChronoError.text .tooShort).toList = false := by
  exact ⟨rfl, rfl, rfl, rfl⟩

/-- The function `firstIdxFrom` finds an actual occurrence, and the earliest one. -/
theorem firstIdxFrom_some_spec (needle : List Char) :
    ∀ (l : List Char) (i : Nat), firstIdxFrom needle l = some i →
      needle.isPrefixOf (l.drop i) = true ∧
      ∀ j, j < i → needle.isPrefixOf (l.drop j) = false := by
  intro l
  induction l with
  | nil =>
    intro i h
    simp only [firstIdxFrom] at h
    by_cases hne : needle.isEmpty
    · simp only [hne, if_pos] at h
      injection h with h'
      subst h'
      refine ⟨?_, fun j hj => absurd hj (Nat.not_lt_zero j)⟩
      cases needle with
      | nil => rfl
      | cons a t => simp [List.isEmpty] at hne
    · simp [hne] at h
  | cons a t ih =>
    intro i h
    simp only [firstIdxFrom] at h
    by_cases hp : needle.isPrefixOf (a :: t)
    · simp only [hp, if_pos] at h
      injection h with h'
      subst h'
      exact ⟨hp, fun j hj => absurd hj (Nat.not_lt_zero j)⟩
    · rw [if_neg hp] at h
      cases hrec : firstIdxFrom needle t with
      | none => rw [hrec] at h; simp at h
      | some i' =>
        rw [hrec] at h
        simp at h
        subst h
        obtain ⟨hpref, hmin⟩ := ih i' hrec
        refine ⟨hpref, fun j hj => ?_⟩
        cases j with
        | zero => simpa using Bool.eq_false_iff.mpr hp
        | succ j' =>
          exact hmin j' (Nat.lt_of_succ_lt_succ hj)

/-- When `firstIdxFrom` reports no occurrence, there is none. -/
theorem firstIdxFrom_none_spec (needle : List Char) :
    ∀ l : List Char, firstIdxFrom needle l = none →
      ∀ j, needle.isPrefixOf (l.drop j) = false := by
  intro l
  induction l with
  | nil =>
    intro h j
    simp only [firstIdxFrom] at h
    by_cases hne : needle.isEmpty
    · simp [hne] at h
    · cases needle with
      | nil => simp [List.isEmpty] at hne
      | cons a t => simp [List.isPrefixOf]
  | cons a t ih =>
    intro h j
    simp only [firstIdxFrom] at h
    by_cases hp : needle.isPrefixOf (a :: t)
    · simp [hp] at h
    · rw [if_neg hp] at h
      cases hrec : firstIdxFrom needle t with
      | some i' => rw [hrec] at h; simp at h
      | none =>
        cases j with
        | zero => simpa using Bool.eq_false_iff.mpr hp
        | succ j' => exact ih hrec j'

/-- C4: `tdRangeVisitStr` splits at the first occurrence of the exact
three-character separator `" - "` (parts 1 and 2 characterize
`firstIdxFrom` as the first occurrence); when the separator is absent it
fails with the separator-not-found error; otherwise the two sides are
parsed independently as `f64` and the error, if any, identifies which side
failed.  Concretely, `"129.039993 - 182.940002"` yields the pair
`(129.039993, 182.940002)`, `"abc"` fails with the separator-not-found
error, and `"1 - x"` fails identifying the second operand. -/
theorem c4_decode_range :
    (∀ (l : List Char) (i : Nat), firstIdxFrom rangeSep l = some i →
      rangeSep.isPrefixOf (l.drop i) = true ∧
      ∀ j, j < i → rangeSep.isPrefixOf (l.drop j) = false) ∧
    (∀ l : List Char, firstIdxFrom rangeSep l = none →
      ∀ j, rangeSep.isPrefixOf (l.drop j) = false) ∧
    (∀ v : String, firstIdxFrom rangeSep v.toList = none →
      tdRangeVisitStr v = .error "couldn't find the range separator") ∧
    (∀ (v : String) (i : Nat) (a b : FloatVal),
      firstIdxFrom rangeSep v.toList = some i →
      rustParseF64 (String.mk (v.toList.take i)) = .ok a →
      rustParseF64 (String.mk (v.toList.drop (i + 3))) = .ok b →
      tdRangeVisitStr v = .ok ⟨a, b⟩) ∧
    (∀ (v : String) (i : Nat) (e : String),
      firstIdxFrom rangeSep v.toList = some i →
      rustParseF64 (String.mk (v.toList.take i)) = .error e →
      tdRangeVisitStr v =
        .error ("failed to parse the first range value: " ++ e)) ∧
    (∀ (v : String) (i : Nat) (a : FloatVal) (e : String),
      firstIdxFrom rangeSep v.toList = some i →
      rustParseF64 (String.mk (v.toList.take i)) = .ok a →
      rustParseF64 (String.mk (v.toList.drop (i + 3))) = .error e →
      tdRangeVisitStr v =
        .error ("failed to parse the second range value: " ++ e)) ∧
    tdRangeVisitStr "129.039993 - 182.940002" =
      .ok ⟨.finite (129.039993 : ℚ), .finite (182.940002 : ℚ)⟩ ∧
    tdRangeVisitStr "abc" = .error "couldn't find the range separator" ∧
    tdRangeVisitStr "1 - x" =
      .error "failed to parse the second range value: invalid float literal" := by
  refine ⟨firstIdxFrom_some_spec rangeSep, firstIdxFrom_none_spec rangeSep,
    ?_, ?_, ?_, ?_, rfl, rfl, rfl⟩
  · intro v h
    simp only [String.toList] at h
    simp [tdRangeVisitStr, h]
  · intro v i a b h ha hb
    simp only [String.toList] at h ha hb
    simp [tdRangeVisitStr, h, ha, hb, String.mk]
  · intro v i e h ha
    simp only [String.toList] at h ha
    simp [tdRangeVisitStr, h, ha, String.mk]
  · intro v i a e h ha hb
    simp only [String.toList] at h ha hb
    simp [tdRangeVisitStr, h, ha, hb, String.mk]

/-- An all-absent common parameter bag, for witnesses. -/
def commonEmpty : CommonQueryParameters :=
  ⟨none, none, none, none, none, none, none, none⟩

/-- A common bag with `instrument_type` and `decimal_places` present. -/
def commonTyped : CommonQueryParameters :=
  ⟨none, none, none, some .stock, none, none, some 2, none⟩

/-- The integration-test request of the crate: symbol TSLA, daily interval,
output size 10, everything else absent. -/
def tsExample : TimeSeriesRequest :=
  ⟨commonEmpty, "TSLA", .day, some 10, none, none, none, none⟩

/-- A time-series request embedding `commonTyped`. -/
def tsTypedExample : TimeSeriesRequest :=
  ⟨commonTyped, "TSLA", .day, none, none, none, none, none⟩

/-- A quote request with no optional fields present. -/
def quoteExample : QuoteRequest :=
  ⟨commonEmpty, "AAPL", .day, none, none, none⟩

/-- A price request with no optional fields present. -/
def priceExample : PriceRequest :=
  ⟨commonEmpty, "AAPL", none, none, none, none, none⟩

/-- A logo request (all four fields are required). -/
def logoExample : LogoRequest := ⟨"AAPL", "NASDAQ", "XNGS", "US"⟩

/-- C5: for every request value — time series, quote, price, logo,
including the flattened common parameter bag — the query-pair encoding
never emits a key for an absent optional field (neither with an empty nor
with a null value: no pair with that key exists at all), and every present
field is emitted as a `name=value` pair with its wire name. -/
theorem c5_optional_field_omission :
    ∀ (ts : TimeSeriesRequest) (q : QuoteRequest) (p : PriceRequest)
      (l : LogoRequest),
    (ts.common.exchange = none → "exchange" ∉ keysOf ts.encode) ∧
    (∀ v : String, ts.common.exchange = some v → ("exchange", v) ∈ ts.encode) ∧
    (ts.common.mic_code = none → "mic_code" ∉ keysOf ts.encode) ∧
    (∀ v : String, ts.common.mic_code = some v → ("mic_code", v) ∈ ts.encode) ∧
    (ts.common.country = none → "country" ∉ keysOf ts.encode) ∧
    (∀ v : String, ts.common.country = some v → ("country", v) ∈ ts.encode) ∧
    (ts.common.instrument_type = none → "type" ∉ keysOf ts.encode) ∧
    (∀ it : InstrumentType, ts.common.instrument_type = some it → ("type", it.wire) ∈ ts.encode) ∧
    (ts.common.format = none → "format" ∉ keysOf ts.encode) ∧
    (∀ f : OutputFormat, ts.common.format = some f → ("format", f.wire) ∈ ts.encode) ∧
    (ts.common.delimiter = none → "delimiter" ∉ keysOf ts.encode) ∧
    (∀ v : String, ts.common.delimiter = some v → ("delimiter", v) ∈ ts.encode) ∧
    (ts.common.decimal_places = none → "dp" ∉ keysOf ts.encode) ∧
    (∀ n : Nat, ts.common.decimal_places = some n → ("dp", toString n) ∈ ts.encode) ∧
    (ts.common.timezone = none → "timezone" ∉ keysOf ts.encode) ∧
    (∀ v : String, ts.common.timezone = some v → ("timezone", v) ∈ ts.encode) ∧
    (ts.output_size = none → "outputsize" ∉ keysOf ts.encode) ∧
    (∀ n : Nat, ts.output_size = some n → ("outputsize", toString n) ∈ ts.encode) ∧
    (ts.order = none → "order" ∉ keysOf ts.encode) ∧
    (∀ o : SortOrder, ts.order = some o → ("order", o.wire) ∈ ts.encode) ∧
    (ts.start_date = none → "start_date" ∉ keysOf ts.encode) ∧
    (∀ d : NaiveDateTime, ts.start_date = some d → ("start_date", d.wire) ∈ ts.encode) ∧
    (ts.end_date = none → "end_date" ∉ keysOf ts.encode) ∧
    (∀ d : NaiveDateTime, ts.end_date = some d → ("end_date", d.wire) ∈ ts.encode) ∧
    (ts.previous_close = none → "previous_close" ∉ keysOf ts.encode) ∧
    (∀ b : Bool, ts.previous_close = some b → ("previous_close", toString b) ∈ ts.encode) ∧
    (q.common.exchange = none → "exchange" ∉ keysOf q.encode) ∧
    (∀ v : String, q.common.exchange = some v → ("exchange", v) ∈ q.encode) ∧
    (q.common.mic_code = none → "mic_code" ∉ keysOf q.encode) ∧
    (∀ v : String, q.common.mic_code = some v → ("mic_code", v) ∈ q.encode) ∧
    (q.common.country = none → "country" ∉ keysOf q.encode) ∧
    (∀ v : String, q.common.country = some v → ("country", v) ∈ q.encode) ∧
    (q.common.instrument_type = none → "type" ∉ keysOf q.encode) ∧
    (∀ it : InstrumentType, q.common.instrument_type = some it → ("type", it.wire) ∈ q.encode) ∧
    (q.common.format = none → "format" ∉ keysOf q.encode) ∧
    (∀ f : OutputFormat, q.common.format = some f → ("format", f.wire) ∈ q.encode) ∧
    (q.common.delimiter = none → "delimiter" ∉ keysOf q.encode) ∧
    (∀ v : String, q.common.delimiter = some v → ("delimiter", v) ∈ q.encode) ∧
    (q.common.decimal_places = none → "dp" ∉ keysOf q.encode) ∧
    (∀ n : Nat, q.common.decimal_places = some n → ("dp", toString n) ∈ q.encode) ∧
    (q.common.timezone = none → "timezone" ∉ keysOf q.encode) ∧
    (∀ v : String, q.common.timezone = some v → ("timezone", v) ∈ q.encode) ∧
    (q.volume_time_period = none → "volume_time_period" ∉ keysOf q.encode) ∧
    (∀ n : Nat, q.volume_time_period = some n → ("volume_time_period", toString n) ∈ q.encode) ∧
    (q.end_of_day = none → "eod" ∉ keysOf q.encode) ∧
    (∀ b : Bool, q.end_of_day = some b → ("eod", toString b) ∈ q.encode) ∧
    (q.rolling_period = none → "rolling_period" ∉ keysOf q.encode) ∧
    (∀ n : Nat, q.rolling_period = some n → ("rolling_period", toString n) ∈ q.encode) ∧
    (p.common.exchange = none → "exchange" ∉ keysOf p.encode) ∧
    (∀ v : String, p.common.exchange = some v → ("exchange", v) ∈ p.encode) ∧
    (p.common.mic_code = none → "mic_code" ∉ keysOf p.encode) ∧
    (∀ v : String, p.common.mic_code = some v → ("mic_code", v) ∈ p.encode) ∧
    (p.common.country = none → "country" ∉ keysOf p.encode) ∧
    (∀ v : String, p.common.country = some v → ("country", v) ∈ p.encode) ∧
    (p.common.instrument_type = none → "type" ∉ keysOf p.encode) ∧
    (∀ it : InstrumentType, p.common.instrument_type = some it → ("type", it.wire) ∈ p.encode) ∧
    (p.common.format = none → "format" ∉ keysOf p.encode) ∧
    (∀ f : OutputFormat, p.common.format = some f → ("format", f.wire) ∈ p.encode) ∧
    (p.common.delimiter = none → "delimiter" ∉ keysOf p.encode) ∧
    (∀ v : String, p.common.delimiter = some v → ("delimiter", v) ∈ p.encode) ∧
    (p.common.decimal_places = none → "dp" ∉ keysOf p.encode) ∧
    (∀ n : Nat, p.common.decimal_places = some n → ("dp", toString n) ∈ p.encode) ∧
    (p.common.timezone = none → "timezone" ∉ keysOf p.encode) ∧
    (∀ v : String, p.common.timezone = some v → ("timezone", v) ∈ p.encode) ∧
    (p.output_size = none → "outputsize" ∉ keysOf p.encode) ∧
    (∀ n : Nat, p.output_size = some n → ("outputsize", toString n) ∈ p.encode) ∧
    (p.order = none → "order" ∉ keysOf p.encode) ∧
    (∀ o : SortOrder, p.order = some o → ("order", o.wire) ∈ p.encode) ∧
    (p.start_date = none → "start_date" ∉ keysOf p.encode) ∧
    (∀ d : NaiveDateTime, p.start_date = some d → ("start_date", d.wire) ∈ p.encode) ∧
    (p.end_date = none → "end_date" ∉ keysOf p.encode) ∧
    (∀ d : NaiveDateTime, p.end_date = some d → ("end_date", d.wire) ∈ p.encode) ∧
    (p.previous_close = none → "previous_close" ∉ keysOf p.encode) ∧
    (∀ b : Bool, p.previous_close = some b → ("previous_close", toString b) ∈ p.encode) ∧
    ("symbol", ts.symbol) ∈ ts.encode ∧
    ("interval", ts.interval.wire) ∈ ts.encode ∧
    ("symbol", q.symbol) ∈ q.encode ∧
    ("interval", q.interval.wire) ∈ q.encode ∧
    ("symbol", p.symbol) ∈ p.encode ∧
    (l.encode = [("symbol", l.symbol), ("exchange", l.exchange), ("mic_code", l.mic_code), ("country", l.country)]) := by
  intro ts q p l
  refine ⟨?_, ?_, ?_, ?_, ?_, ?_, ?_, ?_, ?_, ?_, ?_, ?_, ?_, ?_, ?_, ?_, ?_, ?_, ?_, ?_, ?_, ?_, ?_, ?_, ?_, ?_, ?_, ?_, ?_, ?_, ?_, ?_, ?_, ?_, ?_, ?_, ?_, ?_, ?_, ?_, ?_, ?_, ?_, ?_, ?_, ?_, ?_, ?_, ?_, ?_, ?_, ?_, ?_, ?_, ?_, ?_, ?_, ?_, ?_, ?_, ?_, ?_, ?_, ?_, ?_, ?_, ?_, ?_, ?_, ?_, ?_, ?_, ?_, ?_, ?_, ?_, ?_, ?_, ?_, ?_⟩ <;>
    first
      | (intro x h
         simp [TimeSeriesRequest.encode, QuoteRequest.encode,
           PriceRequest.encode, CommonQueryParameters.encode, h])
      | (intro h
         simp [TimeSeriesRequest.encode, QuoteRequest.encode,
           PriceRequest.encode, CommonQueryParameters.encode, h])
      | simp [TimeSeriesRequest.encode, QuoteRequest.encode,
          PriceRequest.encode, LogoRequest.encode,
          CommonQueryParameters.encode]

/-- C5 witness: on the crate integration-test request (output size present, all
other optionals absent) the encoding omits `exchange` and emits
`outputsize=10`. -/
theorem c5_optional_field_omission_witness :
    "exchange" ∉ keysOf tsExample.encode ∧
    ("outputsize", "10") ∈ tsExample.encode := by
  have h := c5_optional_field_omission tsExample quoteExample priceExample
    logoExample
  exact ⟨h.1 rfl, h.2.2.2.2.2.2.2.2.2.2.2.2.2.2.2.2.2.1 10 rfl⟩

/-- The flat wire names that can appear in an encoded `TimeSeriesRequest`. -/
def tsWireNames : List String :=
  ["exchange", "mic_code", "country", "type", "format", "delimiter", "dp", "timezone", "symbol", "interval", "outputsize", "order", "start_date",
   "end_date", "previous_close"]

/-- The flat wire names that can appear in an encoded `QuoteRequest`. -/
def quoteWireNames : List String :=
  ["exchange", "mic_code", "country", "type", "format", "delimiter", "dp", "timezone", "symbol", "interval", "volume_time_period", "eod",
   "rolling_period"]

/-- The flat wire names that can appear in an encoded `PriceRequest`. -/
def priceWireNames : List String :=
  ["exchange", "mic_code", "country", "type", "format", "delimiter", "dp", "timezone", "symbol", "outputsize", "order", "start_date", "end_date",
   "previous_close"]

@[simp]
theorem keysOf_nil : keysOf [] = [] := rfl

/-- C6: for every request embedding the `CommonQueryParameters` bag,
encoding succeeds (the embedded `encode` functions are total: the only
shapes serialized are strings, integers, booleans and unit enum variants,
all supported by `serde_urlencoded`) and the present fields of the bag appear at
the same top level as the own fields of the owning request, under their fixed
wire names (`type`, `dp`, …): every pair of the own encoding of the bag is a
top-level pair of the request encoding, and every top-level key is drawn
from the flat wire-name list of the request — no key nests the bag under a
sub-key such as `common`. -/
theorem c6_flattened_common_bag :
    ∀ (ts : TimeSeriesRequest) (q : QuoteRequest) (p : PriceRequest),
    (∀ kv, kv ∈ ts.common.encode → kv ∈ ts.encode) ∧
    (∀ it, ts.common.instrument_type = some it → ("type", it.wire) ∈ ts.encode) ∧
    (∀ n, ts.common.decimal_places = some n → ("dp", toString n) ∈ ts.encode) ∧
    (∀ k, k ∈ keysOf ts.encode → k ∈ tsWireNames) ∧
    ("common" ∉ keysOf ts.encode) ∧
    (∀ kv, kv ∈ q.common.encode → kv ∈ q.encode) ∧
    (∀ it, q.common.instrument_type = some it → ("type", it.wire) ∈ q.encode) ∧
    (∀ n, q.common.decimal_places = some n → ("dp", toString n) ∈ q.encode) ∧
    (∀ k, k ∈ keysOf q.encode → k ∈ quoteWireNames) ∧
    ("common" ∉ keysOf q.encode) ∧
    (∀ kv, kv ∈ p.common.encode → kv ∈ p.encode) ∧
    (∀ it, p.common.instrument_type = some it → ("type", it.wire) ∈ p.encode) ∧
    (∀ n, p.common.decimal_places = some n → ("dp", toString n) ∈ p.encode) ∧
    (∀ k, k ∈ keysOf p.encode → k ∈ priceWireNames) ∧
    ("common" ∉ keysOf p.encode) := by
  intro ts q p
  refine ⟨?_, ?_, ?_, ?_, ?_, ?_, ?_, ?_, ?_, ?_, ?_, ?_, ?_, ?_, ?_⟩ <;>
    first
      | (intro kv h
         simp only [TimeSeriesRequest.encode, QuoteRequest.encode,
           PriceRequest.encode, List.append_assoc, List.mem_append]
         exact Or.inl h)
      | (intro x h
         simp [TimeSeriesRequest.encode, QuoteRequest.encode,
           PriceRequest.encode, CommonQueryParameters.encode, h])
      | (intro k hk
         simp only [TimeSeriesRequest.encode, QuoteRequest.encode, PriceRequest.encode,
         CommonQueryParameters.encode, keysOf_append, List.mem_append,
         mem_keysOf_optPair, mem_keysOf_cons, keysOf_nil, List.not_mem_nil,
         or_false, List.mem_cons, tsWireNames, quoteWireNames, priceWireNames] at hk ⊢
         tauto)
      | simp [TimeSeriesRequest.encode, QuoteRequest.encode,
          PriceRequest.encode, CommonQueryParameters.encode]

/-- C6 witness: a request whose common bag carries an instrument type and a
decimal-places setting has `type=Stock` and `dp=2` as top-level pairs. -/
theorem c6_flattened_common_bag_witness :
    ("type", "Stock") ∈ tsTypedExample.encode ∧
    ("dp", "2") ∈ tsTypedExample.encode := by
  have h := c6_flattened_common_bag tsTypedExample quoteExample priceExample
  exact ⟨h.2.1 .stock rfl, h.2.2.1 2 rfl⟩

/-- Dissect a successful `Except` bind. -/
theorem except_bind_ok {α β : Type} (x : Except String α)
    (f : α → Except String β) (b : β) (h : x >>= f = .ok b) :
    ∃ a, x = .ok a ∧ f a = .ok b := by
  cases x with
  | error e => simp [Bind.bind, Except.bind] at h
  | ok a => exact ⟨a, rfl, by simpa [Bind.bind, Except.bind] using h⟩

/-- A successful `QuoteResponse` decode determines each defaulted field by
its own field decoder. -/
theorem decodeQuoteResponse_ok_fields (fields : List (String × Json))
    (r : QuoteResponse) (h : decodeQuoteResponse (.obj fields) = .ok r) :
    decodeOptF64Str fields "rolling_1d_change" = .ok r.rolling_1d_change ∧
    decodeOptF64Str fields "rolling_7d_change" = .ok r.rolling_7d_change ∧
    decodeOptF64Str fields "rolling_period_change" =
      .ok r.rolling_period_change ∧
    decodeMarketOpen fields = .ok r.is_market_open ∧
    decodeFiftyTwoWeekField fields = .ok r.fifty_two_week := by
  simp only [decodeQuoteResponse] at h
  obtain ⟨x1, hx1, h⟩ := except_bind_ok _ _ _ h
  obtain ⟨x2, hx2, h⟩ := except_bind_ok _ _ _ h
  obtain ⟨x3, hx3, h⟩ := except_bind_ok _ _ _ h
  obtain ⟨x4, hx4, h⟩ := except_bind_ok _ _ _ h
  obtain ⟨x5, hx5, h⟩ := except_bind_ok _ _ _ h
  obtain ⟨x6, hx6, h⟩ := except_bind_ok _ _ _ h
  obtain ⟨x7, hx7, h⟩ := except_bind_ok _ _ _ h
  obtain ⟨x8, hx8, h⟩ := except_bind_ok _ _ _ h
  obtain ⟨x9, hx9, h⟩ := except_bind_ok _ _ _ h
  obtain ⟨x10, hx10, h⟩ := except_bind_ok _ _ _ h
  obtain ⟨x11, hx11, h⟩ := except_bind_ok _ _ _ h
  obtain ⟨x12, hx12, h⟩ := except_bind_ok _ _ _ h
  obtain ⟨x13, hx13, h⟩ := except_bind_ok _ _ _ h
  obtain ⟨x14, hx14, h⟩ := except_bind_ok _ _ _ h
  obtain ⟨x15, hx15, h⟩ := except_bind_ok _ _ _ h
  obtain ⟨x16, hx16, h⟩ := except_bind_ok _ _ _ h
  obtain ⟨x17, hx17, h⟩ := except_bind_ok _ _ _ h
  obtain ⟨x18, hx18, h⟩ := except_bind_ok _ _ _ h
  obtain ⟨x19, hx19, h⟩ := except_bind_ok _ _ _ h
  obtain ⟨x20, hx20, h⟩ := except_bind_ok _ _ _ h
  obtain ⟨x21, hx21, h⟩ := except_bind_ok _ _ _ h
  simp only [pure, Except.pure] at h
  injection h with h2
  subst h2
  exact ⟨hx17, hx18, hx19, hx20, hx21⟩

/-- C9: in a decoded `QuoteResponse`, an absent optional numeric field
(`rolling_1d_change`, `rolling_7d_change`, `rolling_period_change`) decodes
to no value (`none`), never to zero; a field present as a quoted number
decodes through the numeric-string codec to that number.  Concretely, the
crate test body (where all three are absent) decodes successfully
with all three equal to `none`, and the same body extended with
`"rolling_1d_change": "3.5"` decodes that field to `3.5`. -/
theorem c9_optional_numeric_fields :
    (∀ (fields : List (String × Json)) (r : QuoteResponse),
      decodeQuoteResponse (.obj fields) = .ok r →
      (getField fields "rolling_1d_change" = none →
        r.rolling_1d_change = none) ∧
      (getField fields "rolling_7d_change" = none →
        r.rolling_7d_change = none) ∧
      (getField fields "rolling_period_change" = none →
        r.rolling_period_change = none) ∧
      (∀ s q, getField fields "rolling_1d_change" = some (.str s) →
        rustParseF64 s = .ok q → r.rolling_1d_change = some q) ∧
      (∀ s q, getField fields "rolling_7d_change" = some (.str s) →
        rustParseF64 s = .ok q → r.rolling_7d_change = some q) ∧
      (∀ s q, getField fields "rolling_period_change" = some (.str s) →
        rustParseF64 s = .ok q → r.rolling_period_change = some q)) ∧
    (decodeQuoteResponse (.obj quoteTestBody)).map
        (fun r => (r.rolling_1d_change, r.rolling_7d_change,
          r.rolling_period_change)) = .ok (none, none, none) ∧
    (decodeQuoteResponse
        (.obj (quoteTestBody ++ [("rolling_1d_change", .str "3.5")]))).map
        (fun r => r.rolling_1d_change) = .ok (some (.finite (3.5 : ℚ))) := by
  refine ⟨fun fields r h => ?_, rfl, rfl⟩
  obtain ⟨h1, h7, hp, _, _⟩ := decodeQuoteResponse_ok_fields fields r h
  refine ⟨fun hab => ?_, fun hab => ?_, fun hab => ?_,
    fun s q hs hq => ?_, fun s q hs hq => ?_, fun s q hs hq => ?_⟩
  · rw [decodeOptF64Str, hab] at h1
    injection h1 with h'
    exact h'.symm
  · rw [decodeOptF64Str, hab] at h7
    injection h7 with h'
    exact h'.symm
  · rw [decodeOptF64Str, hab] at hp
    injection hp with h'
    exact h'.symm
  · simp only [decodeOptF64Str, hs, hq, Except.map] at h1
    injection h1 with h'
    exact h'.symm
  · simp only [decodeOptF64Str, hs, hq, Except.map] at h7
    injection h7 with h'
    exact h'.symm
  · simp only [decodeOptF64Str, hs, hq, Except.map] at hp
    injection hp with h'
    exact h'.symm

/-- C9 witness: the universal part applied to the crate test body. -/
theorem c9_optional_numeric_fields_witness :
    (decodeQuoteResponse (.obj quoteTestBody)).map
      (fun r => r.rolling_1d_change) = .ok none := by
  cases hdec : decodeQuoteResponse (.obj quoteTestBody) with
  | error e =>
    have hmap := c9_optional_numeric_fields.2.1
    rw [hdec] at hmap
    simp [Except.map] at hmap
  | ok r =>
    have hnone := (c9_optional_numeric_fields.1 quoteTestBody r hdec).1 rfl
    simp [Except.map, hnone]

/-- C10: in a decoded `QuoteResponse`, an absent `is_market_open` decodes
successfully to `false` and an absent `fifty_two_week` decodes successfully
to the derived default statistics block — all numeric fields zero and a
range of `(0, 0)` — with no decode failure and no "no value" for either
field (both are non-optional in the Rust struct).  Concretely, the crate
test body with both fields removed decodes successfully to `false` and the
default block. -/
theorem c10_defaulted_fields :
    (∀ (fields : List (String × Json)) (r : QuoteResponse),
      decodeQuoteResponse (.obj fields) = .ok r →
      (getField fields "is_market_open" = none → r.is_market_open = false) ∧
      (getField fields "fifty_two_week" = none →
        r.fifty_two_week = FiftyTwoWeekStats.default)) ∧
    FiftyTwoWeekStats.default =
      ⟨.finite 0, .finite 0, .finite 0, .finite 0, .finite 0, .finite 0,
        ⟨.finite 0, .finite 0⟩⟩ ∧
    (decodeQuoteResponse (.obj quoteBodyNoDefaults)).map
        (fun r => (r.is_market_open, r.fifty_two_week)) =
      .ok (false, FiftyTwoWeekStats.default) := by
  refine ⟨fun fields r h => ?_, rfl, rfl⟩
  obtain ⟨_, _, _, hm, hf⟩ := decodeQuoteResponse_ok_fields fields r h
  refine ⟨fun hab => ?_, fun hab => ?_⟩
  · rw [decodeMarketOpen, hab] at hm
    injection hm with h'
    exact h'.symm
  · rw [decodeFiftyTwoWeekField, hab] at hf
    injection hf with h'
    exact h'.symm

/-- C10 witness: the universal part applied to the test body with the two
fields removed. -/
theorem c10_defaulted_fields_witness :
    (decodeQuoteResponse (.obj quoteBodyNoDefaults)).map
      (fun r => (r.is_market_open, r.fifty_two_week)) =
      .ok (false, FiftyTwoWeekStats.default) := by
  cases hdec : decodeQuoteResponse (.obj quoteBodyNoDefaults) with
  | error e =>
    have hmap := c10_defaulted_fields.2.2
    rw [hdec] at hmap
    simp [Except.map] at hmap
  | ok r =>
    have hu := c10_defaulted_fields.1 quoteBodyNoDefaults r hdec
    simp [Except.map, hu.1 rfl, hu.2 rfl]

/-- C3 witness: the amended error behaviour applied at `"2022-09-31"`. -/
theorem c3_decode_datetime_witness :
    tdDateTimeVisitStr "2022-09-31" =
      .error "unexpected date time format of 2022-09-31: input is out of range" :=
  (c3_decode_datetime.1 "2022-09-31").2.2 .tooShort .outOfRange rfl rfl

/-- C4 witness: the second-operand failure applied at `"1 - x"`. -/
theorem c4_decode_range_witness :
    tdRangeVisitStr "1 - x" =
      .error ("failed to parse the second range value: " ++
        "invalid float literal") :=
  c4_decode_range.2.2.2.2.2.1 "1 - x" 1 (.finite (Rat.ofScientific 1 true 0))
    "invalid float literal" rfl rfl rfl

end TwelveData
